import Mathlib

/-!
Verification of the Session Store and API Gateway layer of the todoc-chat-ai
frontend.

The Session Store is `useAuthStore` (a zustand store): in-memory fields
`isAuthenticated : boolean` and `token : string | null`, plus the browser's
`localStorage` holding the durable `access_token` / `refresh_token` entries.
The API Gateway is the `ApiClient` class in `App.tsx`: a `request` primitive
(JSON calls) and an `uploadFile` variant (multipart calls).

Modelling choices:
* `localStorage` is an association list `Storage`; `getItem` / `setItem` /
  `removeItem` become `storageGet` / `storageSet` / `storageRemove`.
* JavaScript truthiness is made explicit: a `string | null` token is truthy
  iff it is non-null and non-empty; a JSON value is truthy per JS rules.
* The runtime's `fetch` and JSON machinery are external collaborators; a
  call's environment is a `FetchOutcome` (a response with a status and a
  body, or a transport failure), and a response body is classified by what
  `text()` / `JSON.parse` / `json()` would do with it: empty text, non-empty
  unparseable text, or text parsing to a `Json` value.
* Exceptions become an `Except` result; the raw (non-`ApiError`) exceptions
  that can escape — the `fetch` rejection and the `JSON.parse` /
  `response.json()` syntax failure — are separate `JsError` constructors
  from the structured `ApiError` objects the client throws itself.
* Store mutation during a call is explicit state passing; `logoutCalls`
  counts how many times the gateway invoked `Session Store.logout()`.
-/

namespace Todoc

/-! ## Durable storage (browser localStorage) -/

abbrev Storage := List (String × String)

/-- `localStorage.getItem`: first entry with the key, else null. -/
def storageGet : Storage → String → Option String
  | [], _ => none
  | (k, v) :: rest, key => if k = key then some v else storageGet rest key

/-- `localStorage.removeItem`: drop every entry with the key. -/
def storageRemove : Storage → String → Storage
  | [], _ => []
  | (k, v) :: rest, key =>
    if k = key then storageRemove rest key else (k, v) :: storageRemove rest key

/-- `localStorage.setItem`: the key now maps to exactly this value. -/
def storageSet (s : Storage) (key value : String) : Storage :=
  (key, value) :: storageRemove s key

/-! ## Session Store (`useAuthStore`, src/unnamed/part_003) -/

structure StoreState where
  isAuthenticated : Bool
  token : Option String
  storage : Storage
deriving DecidableEq

/-- The store's creation state: `isAuthenticated: false, token: null`.
The durable storage may hold anything left over from an earlier process. -/
def initialState (storage : Storage) : StoreState :=
  { isAuthenticated := false, token := none, storage := storage }

/-- `login(token)`: persist the token under `access_token`, then
`set({ isAuthenticated: true, token })`. -/
def login (st : StoreState) (token : String) : StoreState :=
  { st with
      storage := storageSet st.storage "access_token" token
      isAuthenticated := true
      token := some token }

/-- `logout()`: remove `access_token` and `refresh_token`, then
`set({ isAuthenticated: false, token: null })`. -/
def logout (st : StoreState) : StoreState :=
  { st with
      storage := storageRemove (storageRemove st.storage "access_token") "refresh_token"
      isAuthenticated := false
      token := none }

/-- `init()`: read `access_token`; if the result is truthy (non-null and
non-empty), `set({ isAuthenticated: true, token })`; otherwise do nothing. -/
def init (st : StoreState) : StoreState :=
  match storageGet st.storage "access_token" with
  | some token => if token ≠ "" then { st with isAuthenticated := true, token := some token } else st
  | none => st

/-- One Session Store operation, for reasoning about operation sequences. -/
inductive StoreOp where
  | login (token : String)
  | logout
  | init
deriving DecidableEq

def applyOp (st : StoreState) : StoreOp → StoreState
  | .login tk => login st tk
  | .logout => logout st
  | .init => init st

def applyOps (st : StoreState) (ops : List StoreOp) : StoreState :=
  ops.foldl applyOp st

/-- The token field holds a present, non-empty token. -/
def tokenPresentNonEmpty (st : StoreState) : Bool :=
  match st.token with
  | some tk => tk != ""
  | none => false

/-- Spec invariant: `isAuthenticated` is true iff `token` is present and
non-empty. -/
def authInvariant (st : StoreState) : Bool :=
  st.isAuthenticated == tokenPresentNonEmpty st

/-- An operation's login argument (if it is a login) is non-empty. -/
def loginOk : StoreOp → Bool
  | .login tk => tk != ""
  | _ => true

def loginArgsNonEmpty (ops : List StoreOp) : Bool :=
  ops.all loginOk

/-! ### Storage lemmas -/

theorem storageGet_set_self (s : Storage) (k v : String) :
    storageGet (storageSet s k v) k = some v := by
  simp [storageSet, storageGet]

theorem storageGet_remove_self (s : Storage) (k : String) :
    storageGet (storageRemove s k) k = none := by
  induction s with
  | nil => rfl
  | cons p t ih =>
    obtain ⟨k0, v⟩ := p
    by_cases h : k0 = k
    · simpa [storageRemove, h] using ih
    · simp [storageRemove, storageGet, h, ih]

theorem storageGet_remove_other (s : Storage) (k k' : String) (h : k ≠ k') :
    storageGet (storageRemove s k') k = storageGet s k := by
  induction s with
  | nil => rfl
  | cons p t ih =>
    obtain ⟨k0, v⟩ := p
    by_cases h0 : k0 = k'
    · subst h0
      simp [storageRemove, storageGet, Ne.symm h, ih]
    · by_cases h1 : k0 = k
      · subst h1
        simp [storageRemove, storageGet, h0]
      · simp [storageRemove, storageGet, h0, h1, ih]

theorem storageRemove_self_self (s : Storage) (k : String) :
    storageRemove (storageRemove s k) k = storageRemove s k := by
  induction s with
  | nil => rfl
  | cons p t ih =>
    obtain ⟨k0, v⟩ := p
    by_cases h : k0 = k
    · simp [storageRemove, h, ih]
    · simp [storageRemove, h, ih]

theorem storageRemove_comm (s : Storage) (k1 k2 : String) :
    storageRemove (storageRemove s k1) k2 = storageRemove (storageRemove s k2) k1 := by
  induction s with
  | nil => rfl
  | cons p t ih =>
    obtain ⟨k0, v⟩ := p
    by_cases h1 : k0 = k1
    · subst h1
      by_cases h2 : k0 = k2
      · subst h2
        simp [storageRemove, ih]
      · simp [storageRemove, h2, ih]
    · by_cases h2 : k0 = k2
      · subst h2
        simp [storageRemove, h1, ih]
      · simp [storageRemove, h1, h2, ih]

theorem logout_logout (st : StoreState) : logout (logout st) = logout st := by
  simp only [logout]
  rw [storageRemove_comm (storageRemove st.storage "access_token") "refresh_token" "access_token",
    storageRemove_self_self st.storage "access_token",
    storageRemove_self_self (storageRemove st.storage "access_token") "refresh_token"]

theorem logout_accessToken_none (st : StoreState) :
    storageGet (logout st).storage "access_token" = none := by
  simp only [logout]
  rw [storageGet_remove_other _ "access_token" "refresh_token" (by decide),
    storageGet_remove_self]

theorem logout_refreshToken_none (st : StoreState) :
    storageGet (logout st).storage "refresh_token" = none := by
  simp only [logout]
  rw [storageGet_remove_self]

/-! ### Session Store invariant lemmas -/

theorem authInvariant_applyOp (st : StoreState) (op : StoreOp)
    (hst : authInvariant st = true) (hop : loginOk op = true) :
    authInvariant (applyOp st op) = true := by
  cases op with
  | login tk =>
    simp only [loginOk] at hop
    simp [applyOp, login, authInvariant, tokenPresentNonEmpty, hop]
  | logout =>
    simp [applyOp, Todoc.logout, authInvariant, tokenPresentNonEmpty]
  | init =>
    simp only [applyOp, Todoc.init]
    cases hget : storageGet st.storage "access_token" with
    | none => exact hst
    | some tok =>
      by_cases he : tok = ""
      · simp [he]
        exact hst
      · simp [he, authInvariant, tokenPresentNonEmpty]

theorem authInvariant_applyOps (st : StoreState) (ops : List StoreOp)
    (hst : authInvariant st = true) (hops : loginArgsNonEmpty ops = true) :
    authInvariant (applyOps st ops) = true := by
  induction ops generalizing st with
  | nil => simpa [applyOps] using hst
  | cons op rest ih =>
    simp only [loginArgsNonEmpty, List.all_cons, Bool.and_eq_true] at hops
    have hstep : applyOps st (op :: rest) = applyOps (applyOp st op) rest := rfl
    rw [hstep]
    exact ih (applyOp st op) (authInvariant_applyOp st op hst hops.1) hops.2

/-! ## JSON values and JavaScript truthiness -/

/-- A JSON value as produced by the runtime's `JSON.parse`. -/
inductive Json where
  | null
  | bool (b : Bool)
  | num (n : Int)
  | str (s : String)
  | arr (elems : List Json)
  | obj (fields : List (String × Json))

def fieldsLookup : List (String × Json) → String → Option Json
  | [], _ => none
  | (k, v) :: rest, key => if k = key then some v else fieldsLookup rest key

/-- Property access `j.key`: a field of an object, `undefined` (none)
otherwise. -/
def Json.getField : Json → String → Option Json
  | .obj fields, key => fieldsLookup fields key
  | _, _ => none

/-- JavaScript truthiness of a JSON value (`undefined` is the `none` of the
surrounding `Option`). -/
def Json.truthy : Json → Bool
  | .null => false
  | .bool b => b
  | .num n => n != 0
  | .str s => s != ""
  | .arr _ => true
  | .obj _ => true

/-- The JavaScript `a || b` on a possibly-undefined left operand. -/
def jsOr (value : Option Json) (fallback : Json) : Json :=
  match value with
  | some v => if v.truthy then v else fallback
  | none => fallback

/-! ## API Gateway (`ApiClient`, src/frontend/src/App.tsx) -/

/-- What the runtime's `text()` / `JSON.parse` / `json()` find in a response
body: empty text, non-empty text that is not valid JSON, or non-empty text
parsing to a JSON value. -/
inductive ResponseBody where
  | empty
  | invalid
  | valid (j : Json)

/-- The environment's answer to one `fetch` call: an HTTP response, or a
transport failure (the `fetch` promise rejects). -/
inductive FetchOutcome where
  | response (status : Nat) (body : ResponseBody)
  | failure

/-- A thrown/rejected value as seen by the caller: a structured `ApiError`
object built by the client, or one of the raw runtime exceptions that can
escape (`fetch`'s `TypeError`, or the `SyntaxError` of `JSON.parse` /
`response.json()`). -/
inductive JsError where
  | api (message : Json) (status : Nat) (detail : Option Json)
  | fetchFailed
  | jsonParseError

/-- `response.ok`: status in the 2xx range. -/
def responseOk (status : Nat) : Bool :=
  decide (200 ≤ status) && decide (status < 300)

def httpErrorMessage (status : Nat) : String :=
  "HTTP error! status: " ++ toString status

def networkErrorMessage : String :=
  "Network error. Please check your connection."

/-- `await response.json().catch(() => ({}))`: the parsed body, or `{}` when
the body is empty or not valid JSON. -/
def errorBodyJson : ResponseBody → Json
  | .valid j => j
  | _ => .obj []

/-- The `detail` field `response.json()` would surface for an error body. -/
def bodyDetail (body : ResponseBody) : Option Json :=
  (errorBodyJson body).getField "detail"

/-- JavaScript object property assignment on a string-valued header object
(keys are unique in a JS object): replace the key if present, otherwise
append it. -/
def headersSet : List (String × String) → String → String → List (String × String)
  | [], key, value => [(key, value)]
  | (k, v) :: rest, key, value =>
    if k = key then (key, value) :: rest else (k, v) :: headersSet rest key value

/-- Object spread `{ ...base, ...extra }` for header objects. -/
def headersSpread (base extra : List (String × String)) : List (String × String) :=
  extra.foldl (fun hs p => headersSet hs p.1 p.2) base

/-- Header object lookup. -/
def headerGet : List (String × String) → String → Option String
  | [], _ => none
  | (k, v) :: rest, key => if k = key then some v else headerGet rest key

/-- Result of one sub-block of a gateway call: the value or thrown error,
the Session Store afterwards, and how many times `logout()` was invoked. -/
structure StepResult where
  result : Except JsError Json
  store : StoreState
  logoutCalls : Nat

/-- A whole gateway call: its outcome plus the headers of the outgoing
request. -/
structure GatewayOutcome where
  result : Except JsError Json
  store : StoreState
  logoutCalls : Nat
  headers : List (String × String)

namespace ApiClient

/-- Header construction of `ApiClient.request` (App.tsx lines 231-238):
`Content-Type: application/json` spread with the caller's headers, then
`Authorization: Bearer <token>` when the store's token is truthy. -/
def requestHeaders (token : Option String) (optionHeaders : List (String × String)) :
    List (String × String) :=
  let headers := headersSpread [("Content-Type", "application/json")] optionHeaders
  match token with
  | some tk => if tk ≠ "" then headersSet headers "Authorization" ("Bearer " ++ tk) else headers
  | none => headers

/-- The `try` block of `ApiClient.request` (App.tsx lines 240-266). -/
def requestTry (st : StoreState) (fetch : FetchOutcome) : StepResult :=
  match fetch with
  | .failure => ⟨.error .fetchFailed, st, 0⟩
  | .response status body =>
    if responseOk status then
      match body with
      | .empty => ⟨.ok (.obj []), st, 0⟩
      | .invalid => ⟨.error .jsonParseError, st, 0⟩
      | .valid j => ⟨.ok j, st, 0⟩
    else
      let afterAuth : StoreState × Nat :=
        if status = 401 then (logout st, 1) else (st, 0)
      let errorData := errorBodyJson body
      let detail := errorData.getField "detail"
      ⟨.error (.api (jsOr detail (.str (httpErrorMessage status))) status detail),
        afterAuth.1, afterAuth.2⟩

/-- The `catch` block of `ApiClient.request` (App.tsx lines 267-279): a
caught error with `status === 401` forces a logout; a caught error with a
truthy `status` is rethrown; anything else becomes the fixed network
error with status 0. -/
def requestCatch (st : StoreState) (e : JsError) : StepResult :=
  match e with
  | .api m s d =>
    let afterAuth : StoreState × Nat :=
      if s = 401 then (logout st, 1) else (st, 0)
    if s ≠ 0 then ⟨.error (.api m s d), afterAuth.1, afterAuth.2⟩
    else ⟨.error (.api (.str networkErrorMessage) 0 none), afterAuth.1, afterAuth.2⟩
  | _ => ⟨.error (.api (.str networkErrorMessage) 0 none), st, 0⟩

/-- `ApiClient.request` (App.tsx lines 224-280). -/
def request (st : StoreState) (optionHeaders : List (String × String))
    (fetch : FetchOutcome) : GatewayOutcome :=
  let headers := requestHeaders st.token optionHeaders
  let t := requestTry st fetch
  match t.result with
  | .ok v => ⟨.ok v, t.store, t.logoutCalls, headers⟩
  | .error e =>
    let c := requestCatch t.store e
    ⟨c.result, c.store, t.logoutCalls + c.logoutCalls, headers⟩

/-- Header construction of `ApiClient.uploadFile` (App.tsx lines 321-324):
start empty (no manual `Content-Type`), add the bearer header when the
token is truthy. -/
def uploadFileHeaders (token : Option String) : List (String × String) :=
  match token with
  | some tk => if tk ≠ "" then [("Authorization", "Bearer " ++ tk)] else []
  | none => []

/-- `ApiClient.uploadFile` (App.tsx lines 317-345). There is no `try`/`catch`
here: a `fetch` rejection or a `response.json()` failure escapes raw. -/
def uploadFile (st : StoreState) (fetch : FetchOutcome) : GatewayOutcome :=
  let headers := uploadFileHeaders st.token
  match fetch with
  | .failure => ⟨.error .fetchFailed, st, 0, headers⟩
  | .response status body =>
    if responseOk status then
      match body with
      | .valid j => ⟨.ok j, st, 0, headers⟩
      | _ => ⟨.error .jsonParseError, st, 0, headers⟩
    else
      let errorData := errorBodyJson body
      let afterAuth : StoreState × Nat :=
        if status = 401 then (logout st, 1) else (st, 0)
      ⟨.error (.api (jsOr (errorData.getField "detail") (.str (httpErrorMessage status))) status none),
        afterAuth.1, afterAuth.2, headers⟩

end ApiClient

/-- The status carried by a rejected structured error, if the rejection is
one. -/
def resultStatus : Except JsError Json → Option Nat
  | .error (.api _ s _) => some s
  | _ => none

/-- Whether a call's outcome is a rejection with a structured `ApiError`. -/
def isApiError : Except JsError Json → Bool
  | .error (.api _ _ _) => true
  | _ => false

/-! ## Claim C1: the Session Store authentication invariant -/

/-- C1 (counterexample): the claimed invariant — `isAuthenticated` iff the
token is present and non-empty — fails as stated: from the initial
anonymous state, `login("")` leaves `isAuthenticated = true` while the
token is the empty string. -/
theorem authStore_invariant_cex :
    authInvariant (applyOps (initialState []) [StoreOp.login ""]) = false := by
  rfl

/-- C1 (amended): for every sequence of `login`/`logout`/`init` operations
from the initial anonymous state whose `login` arguments are all non-empty,
`isAuthenticated` is true iff the token is present and non-empty; moreover
each single operation preserves the invariant whenever its `login` argument
(if any) is non-empty. -/
theorem authStore_invariant (storage : Storage) (ops : List StoreOp)
    (hops : loginArgsNonEmpty ops = true) :
    authInvariant (applyOps (initialState storage) ops) = true ∧
    ∀ st op, authInvariant st = true → loginOk op = true →
      authInvariant (applyOp st op) = true := by
  refine ⟨authInvariant_applyOps _ _ rfl hops, ?_⟩
  intro st op h1 h2
  exact authInvariant_applyOp st op h1 h2

/-- C1 witness: a concrete non-empty-login run keeps the invariant. -/
theorem authStore_invariant_witness :
    authInvariant (applyOps (initialState [("refresh_token", "r0")])
      [StoreOp.login "abc123", StoreOp.init, StoreOp.logout, StoreOp.init]) = true :=
  (authStore_invariant [("refresh_token", "r0")]
    [StoreOp.login "abc123", StoreOp.init, StoreOp.logout, StoreOp.init] (by decide)).1

/-! ## Claim C8: login/init round trip -/

/-- C8: for every starting state and every token string, `login(token)`
followed immediately by `init()` leaves the store with that token and
`isAuthenticated = true`; indeed `init` leaves the whole state unchanged. -/
theorem login_init_roundtrip (st : StoreState) (tk : String) :
    Todoc.init (login st tk) = login st tk ∧
    (Todoc.init (login st tk)).token = some tk ∧
    (Todoc.init (login st tk)).isAuthenticated = true := by
  have hmain : Todoc.init (login st tk) = login st tk := by
    by_cases he : tk = ""
    · subst he
      simp [Todoc.init, login, storageGet_set_self]
    · simp [Todoc.init, login, storageGet_set_self, he]
  refine ⟨hmain, ?_, ?_⟩ <;> rw [hmain] <;> rfl

/-! ## Claim C9: logout idempotence -/

/-- C9: `logout()` is idempotent — a second `logout()` from any state leaves
the same anonymous state (no token in memory, `access_token` and
`refresh_token` gone from durable storage, `isAuthenticated = false`); being
a total function it completes without error. -/
theorem logout_idempotent (st : StoreState) :
    logout (logout st) = logout st ∧
    (logout st).isAuthenticated = false ∧
    (logout st).token = none ∧
    storageGet (logout st).storage "access_token" = none ∧
    storageGet (logout st).storage "refresh_token" = none :=
  ⟨logout_logout st, rfl, rfl, logout_accessToken_none st, logout_refreshToken_none st⟩

/-! ## Claim C2: forced logout on HTTP 401 -/

/-- C2 (counterexample): on a single 401 response, `ApiClient.request`
invokes `Session Store.logout()` twice — once in the `!response.ok` branch
and once more in the `catch` handler — not exactly once as claimed. -/
theorem gateway_401_logout_cex :
    (ApiClient.request (login (initialState []) "tok") [] (.response 401 .empty)).logoutCalls = 2 := by
  rfl

/-- C2 (amended): on every 401 response the store ends anonymous (token
cleared from memory and durable storage) before the structured 401 error is
surfaced; `logout()` is invoked twice per 401 in the JSON `request` path and
once in `uploadFile` — idempotent, so the net state transition equals a
single logout. -/
theorem gateway_401_logout (st : StoreState) (optionHeaders : List (String × String))
    (body : ResponseBody) :
    (ApiClient.request st optionHeaders (.response 401 body)).logoutCalls = 2 ∧
    (ApiClient.request st optionHeaders (.response 401 body)).store = logout st ∧
    resultStatus (ApiClient.request st optionHeaders (.response 401 body)).result = some 401 ∧
    (ApiClient.request st optionHeaders (.response 401 body)).store.isAuthenticated = false ∧
    (ApiClient.request st optionHeaders (.response 401 body)).store.token = none ∧
    storageGet (ApiClient.request st optionHeaders (.response 401 body)).store.storage
      "access_token" = none ∧
    storageGet (ApiClient.request st optionHeaders (.response 401 body)).store.storage
      "refresh_token" = none ∧
    (ApiClient.uploadFile st (.response 401 body)).logoutCalls = 1 ∧
    (ApiClient.uploadFile st (.response 401 body)).store = logout st ∧
    resultStatus (ApiClient.uploadFile st (.response 401 body)).result = some 401 := by
  have hok : responseOk 401 = false := rfl
  have h : ApiClient.request st optionHeaders (.response 401 body) =
      ⟨.error (.api (jsOr (bodyDetail body) (.str (httpErrorMessage 401))) 401 (bodyDetail body)),
        logout (logout st), 2, ApiClient.requestHeaders st.token optionHeaders⟩ := by
    simp [ApiClient.request, ApiClient.requestTry, ApiClient.requestCatch, hok, bodyDetail]
  have hu : ApiClient.uploadFile st (.response 401 body) =
      ⟨.error (.api (jsOr (bodyDetail body) (.str (httpErrorMessage 401))) 401 none),
        logout st, 1, ApiClient.uploadFileHeaders st.token⟩ := by
    simp [ApiClient.uploadFile, hok, bodyDetail]
  rw [h, hu, logout_logout]
  exact ⟨rfl, rfl, rfl, rfl, rfl, logout_accessToken_none st, logout_refreshToken_none st,
    rfl, rfl, rfl⟩

/-! ## Claim C3: non-401 errors leave the store untouched -/

/-- C3: for every response whose status is outside 2xx and not 401, both
`request` and `uploadFile` reject with a structured error carrying that
status, the Session Store is left completely unchanged, and `logout()` is
never invoked. -/
theorem gateway_non401_frame (st : StoreState) (optionHeaders : List (String × String))
    (status : Nat) (body : ResponseBody)
    (hok : responseOk status = false) (h401 : status ≠ 401) :
    resultStatus (ApiClient.request st optionHeaders (.response status body)).result = some status ∧
    isApiError (ApiClient.request st optionHeaders (.response status body)).result = true ∧
    (ApiClient.request st optionHeaders (.response status body)).store = st ∧
    (ApiClient.request st optionHeaders (.response status body)).logoutCalls = 0 ∧
    resultStatus (ApiClient.uploadFile st (.response status body)).result = some status ∧
    (ApiClient.uploadFile st (.response status body)).store = st ∧
    (ApiClient.uploadFile st (.response status body)).logoutCalls = 0 := by
  by_cases h0 : status = 0
  · subst h0
    simp [ApiClient.request, ApiClient.requestTry, ApiClient.requestCatch, ApiClient.uploadFile,
      hok, h401, resultStatus, isApiError]
  · simp [ApiClient.request, ApiClient.requestTry, ApiClient.requestCatch, ApiClient.uploadFile,
      hok, h401, h0, resultStatus, isApiError]

/-- C3 witness: a concrete 404 call rejects with status 404 and leaves a
logged-in store untouched. -/
theorem gateway_non401_frame_witness :
    resultStatus (ApiClient.request (login (initialState []) "tok") []
      (.response 404 .empty)).result = some 404 ∧
    isApiError (ApiClient.request (login (initialState []) "tok") []
      (.response 404 .empty)).result = true ∧
    (ApiClient.request (login (initialState []) "tok") []
      (.response 404 .empty)).store = login (initialState []) "tok" ∧
    (ApiClient.request (login (initialState []) "tok") []
      (.response 404 .empty)).logoutCalls = 0 ∧
    resultStatus (ApiClient.uploadFile (login (initialState []) "tok")
      (.response 404 .empty)).result = some 404 ∧
    (ApiClient.uploadFile (login (initialState []) "tok")
      (.response 404 .empty)).store = login (initialState []) "tok" ∧
    (ApiClient.uploadFile (login (initialState []) "tok")
      (.response 404 .empty)).logoutCalls = 0 :=
  gateway_non401_frame (login (initialState []) "tok") [] 404 .empty rfl (by decide)

/-! ## Claim C5: transport failure -/

/-- C5 (counterexample): `uploadFile` has no `try`/`catch`, so on a
transport failure it rejects with the raw `fetch` exception, not with a
structured status-0 error. -/
theorem gateway_transport_cex :
    (ApiClient.uploadFile (initialState []) .failure).result = .error .fetchFailed ∧
    isApiError (ApiClient.uploadFile (initialState []) .failure).result = false :=
  ⟨rfl, rfl⟩

/-- C5 (amended): on a transport failure the JSON `request` path rejects
with the structured error of status 0 and the fixed network message, with
the store untouched; `uploadFile` instead rejects with the raw transport
exception (its store also untouched). -/
theorem gateway_transport (st : StoreState) (optionHeaders : List (String × String)) :
    (ApiClient.request st optionHeaders .failure).result
        = .error (.api (.str networkErrorMessage) 0 none) ∧
    (ApiClient.request st optionHeaders .failure).store = st ∧
    (ApiClient.request st optionHeaders .failure).logoutCalls = 0 ∧
    (ApiClient.uploadFile st .failure).result = .error .fetchFailed ∧
    (ApiClient.uploadFile st .failure).store = st ∧
    (ApiClient.uploadFile st .failure).logoutCalls = 0 :=
  ⟨rfl, rfl, rfl, rfl, rfl, rfl⟩

/-! ## Claim C6: empty 2xx bodies -/

/-- C6 (counterexample): on a 2xx response with an empty body, `uploadFile`
calls `response.json()` directly and rejects with the raw JSON parse
failure rather than resolving with an empty object. -/
theorem gateway_empty_body_cex :
    (ApiClient.uploadFile (initialState []) (.response 200 .empty)).result
        = .error .jsonParseError ∧
    isApiError (ApiClient.uploadFile (initialState []) (.response 200 .empty)).result = false :=
  ⟨rfl, rfl⟩

/-- C6 (amended): on every 2xx response with an empty body, the JSON
`request` path resolves with the empty object (never a failure), leaving
the store untouched; the `uploadFile` variant instead rejects with the raw
JSON parse failure. -/
theorem gateway_empty_body (st : StoreState) (optionHeaders : List (String × String))
    (status : Nat) (hok : responseOk status = true) :
    (ApiClient.request st optionHeaders (.response status .empty)).result = .ok (.obj []) ∧
    (ApiClient.request st optionHeaders (.response status .empty)).store = st ∧
    (ApiClient.request st optionHeaders (.response status .empty)).logoutCalls = 0 ∧
    (ApiClient.uploadFile st (.response status .empty)).result = .error .jsonParseError := by
  simp [ApiClient.request, ApiClient.requestTry, ApiClient.uploadFile, hok]

/-- C6 witness: a concrete 204 response with an empty body. -/
theorem gateway_empty_body_witness :
    (ApiClient.request (initialState []) [] (.response 204 .empty)).result = .ok (.obj []) ∧
    (ApiClient.request (initialState []) [] (.response 204 .empty)).store = initialState [] ∧
    (ApiClient.request (initialState []) [] (.response 204 .empty)).logoutCalls = 0 ∧
    (ApiClient.uploadFile (initialState []) (.response 204 .empty)).result
        = .error .jsonParseError :=
  gateway_empty_body (initialState []) [] 204 rfl

/-! ### Header lemmas -/

theorem headerGet_set_self (hs : List (String × String)) (k v : String) :
    headerGet (headersSet hs k v) k = some v := by
  induction hs with
  | nil => simp [headersSet, headerGet]
  | cons p t ih =>
    obtain ⟨k0, v0⟩ := p
    by_cases h0 : k0 = k
    · simp [headersSet, headerGet, h0]
    · simp [headersSet, headerGet, h0, ih]

theorem headerGet_set_other (hs : List (String × String)) (key v k : String) (h : k ≠ key) :
    headerGet (headersSet hs key v) k = headerGet hs k := by
  induction hs with
  | nil => simp [headersSet, headerGet, Ne.symm h]
  | cons p t ih =>
    obtain ⟨k0, v0⟩ := p
    by_cases h0 : k0 = key
    · subst h0
      simp [headersSet, headerGet, Ne.symm h]
    · simp [headersSet, headerGet, h0, ih]

theorem headerGet_spread_none (base extra : List (String × String)) (k : String)
    (hb : headerGet base k = none) (he : headerGet extra k = none) :
    headerGet (headersSpread base extra) k = none := by
  induction extra generalizing base with
  | nil => exact hb
  | cons p rest ih =>
    obtain ⟨key, value⟩ := p
    have hk : k ≠ key := by
      intro hkk
      subst hkk
      simp [headerGet] at he
    have he' : headerGet rest k = none := by
      simpa [headerGet, Ne.symm hk] using he
    have hb' : headerGet (headersSet base key value) k = none := by
      rw [headerGet_set_other base key value k hk]
      exact hb
    simpa only [headersSpread, List.foldl_cons] using ih (headersSet base key value) hb' he'

theorem request_headers_eq (st : StoreState) (optionHeaders : List (String × String))
    (fetch : FetchOutcome) :
    (ApiClient.request st optionHeaders fetch).headers
      = ApiClient.requestHeaders st.token optionHeaders := by
  simp only [ApiClient.request]
  cases h : (ApiClient.requestTry st fetch).result with
  | ok v => simp [h]
  | error e => simp [h]

theorem uploadFile_headers_eq (st : StoreState) (fetch : FetchOutcome) :
    (ApiClient.uploadFile st fetch).headers = ApiClient.uploadFileHeaders st.token := by
  cases fetch with
  | failure => rfl
  | response status body =>
    by_cases hok : responseOk status = true
    · cases body <;> simp [ApiClient.uploadFile, hok]
    · have hok' : responseOk status = false := by simpa using hok
      simp [ApiClient.uploadFile, hok']

/-! ## Claim C7: the Authorization header -/

/-- C7 (counterexample): the claim fails for the empty token. After
`login("")` the store's token field is non-null, yet the gateway's JS
truthiness check attaches no `Authorization` header. -/
theorem gateway_auth_header_cex :
    headerGet (ApiClient.request (login (initialState []) "") []
      (.response 200 .empty)).headers "Authorization" = none ∧
    (login (initialState []) "").token ≠ none :=
  ⟨rfl, by decide⟩

/-- C7 (amended): for every gateway call (JSON or file upload), if the
Session Store holds a non-empty token the outgoing `Authorization` header
is exactly `"Bearer "` followed by that token; if the token is null or
empty — and the caller's own headers carry no `Authorization` entry — no
`Authorization` header is attached. -/
theorem gateway_auth_header (st : StoreState) (optionHeaders : List (String × String))
    (fetch : FetchOutcome) (hopt : headerGet optionHeaders "Authorization" = none) :
    (∀ tk, st.token = some tk → tk ≠ "" →
      headerGet (ApiClient.request st optionHeaders fetch).headers "Authorization"
          = some ("Bearer " ++ tk) ∧
      headerGet (ApiClient.uploadFile st fetch).headers "Authorization"
          = some ("Bearer " ++ tk)) ∧
    ((st.token = none ∨ st.token = some "") →
      headerGet (ApiClient.request st optionHeaders fetch).headers "Authorization" = none ∧
      headerGet (ApiClient.uploadFile st fetch).headers "Authorization" = none) := by
  have hbase : headerGet (headersSpread [("Content-Type", "application/json")] optionHeaders)
      "Authorization" = none :=
    headerGet_spread_none _ _ _ rfl hopt
  constructor
  · intro tk htk hne
    rw [request_headers_eq, uploadFile_headers_eq, htk]
    constructor
    · simp [ApiClient.requestHeaders, hne, headerGet_set_self]
    · simp [ApiClient.uploadFileHeaders, hne, headerGet]
  · intro hcase
    rw [request_headers_eq, uploadFile_headers_eq]
    rcases hcase with hnone | hempty
    · rw [hnone]
      exact ⟨hbase, rfl⟩
    · rw [hempty]
      exact ⟨by simpa [ApiClient.requestHeaders] using hbase, rfl⟩

/-- C7 witness: after `login("abc123")` the outgoing header is exactly
`Bearer abc123` on both call paths. -/
theorem gateway_auth_header_witness :
    headerGet (ApiClient.request (login (initialState []) "abc123") []
      (.response 200 .empty)).headers "Authorization" = some "Bearer abc123" ∧
    headerGet (ApiClient.uploadFile (login (initialState []) "abc123")
      (.response 200 .empty)).headers "Authorization" = some "Bearer abc123" :=
  (gateway_auth_header (login (initialState []) "abc123") [] (.response 200 .empty) rfl).1
    "abc123" rfl (by decide)

/-! ## Claim C4: error messages from the detail field -/

theorem request_error_result (st : StoreState) (optionHeaders : List (String × String))
    (status : Nat) (body : ResponseBody)
    (hok : responseOk status = false) (h0 : status ≠ 0) :
    (ApiClient.request st optionHeaders (.response status body)).result
      = .error (.api (jsOr (bodyDetail body) (.str (httpErrorMessage status))) status
          (bodyDetail body)) := by
  by_cases h401 : status = 401
  · subst h401
    simp [ApiClient.request, ApiClient.requestTry, ApiClient.requestCatch, hok, bodyDetail]
  · simp [ApiClient.request, ApiClient.requestTry, ApiClient.requestCatch, hok, h0, h401,
      bodyDetail]

theorem uploadFile_error_result (st : StoreState) (status : Nat) (body : ResponseBody)
    (hok : responseOk status = false) :
    (ApiClient.uploadFile st (.response status body)).result
      = .error (.api (jsOr (bodyDetail body) (.str (httpErrorMessage status))) status none) := by
  by_cases h401 : status = 401
  · subst h401
    simp [ApiClient.uploadFile, hok, bodyDetail]
  · simp [ApiClient.uploadFile, hok, h401, bodyDetail]

/-- C4 (counterexample): a JSON error body whose `detail` field is the
empty string does carry a detail string, yet `detail || generic` is falsy,
so the surfaced message is the generic one, not the detail verbatim. -/
theorem gateway_error_detail_cex :
    bodyDetail (ResponseBody.valid (Json.obj [("detail", Json.str "")])) = some (Json.str "") ∧
    (ApiClient.request (initialState []) []
      (.response 404 (.valid (.obj [("detail", Json.str "")])))).result
        = .error (.api (.str "HTTP error! status: 404") 404 (some (Json.str ""))) ∧
    "HTTP error! status: 404" ≠ "" :=
  ⟨rfl, rfl, by decide⟩

/-- C4 (amended): for every response with a nonzero status outside 2xx: if
the JSON body carries a non-empty `detail` string, the rejected error's
message is exactly that string; if the body is non-JSON, empty, lacks
`detail`, or its `detail` is the empty string, the message is the generic
`"HTTP error! status: <code>"`; in every case the error's status field is
the HTTP status. (A status-0 response is excluded: the JSON path's catch
handler rewrites it into the fixed network error.) -/
theorem gateway_error_detail (st : StoreState) (optionHeaders : List (String × String))
    (status : Nat) (body : ResponseBody)
    (hok : responseOk status = false) (h0 : status ≠ 0) :
    (∀ s, s ≠ "" → bodyDetail body = some (.str s) →
      (ApiClient.request st optionHeaders (.response status body)).result
          = .error (.api (.str s) status (some (.str s))) ∧
      (ApiClient.uploadFile st (.response status body)).result
          = .error (.api (.str s) status none)) ∧
    (bodyDetail body = none →
      (ApiClient.request st optionHeaders (.response status body)).result
          = .error (.api (.str (httpErrorMessage status)) status none) ∧
      (ApiClient.uploadFile st (.response status body)).result
          = .error (.api (.str (httpErrorMessage status)) status none)) ∧
    (bodyDetail body = some (.str "") →
      (ApiClient.request st optionHeaders (.response status body)).result
          = .error (.api (.str (httpErrorMessage status)) status (some (.str ""))) ∧
      (ApiClient.uploadFile st (.response status body)).result
          = .error (.api (.str (httpErrorMessage status)) status none)) := by
  refine ⟨?_, ?_, ?_⟩
  · intro s hs hdet
    rw [request_error_result st optionHeaders status body hok h0,
      uploadFile_error_result st status body hok, hdet]
    constructor <;> simp [jsOr, Json.truthy, hs]
  · intro hdet
    rw [request_error_result st optionHeaders status body hok h0,
      uploadFile_error_result st status body hok, hdet]
    exact ⟨rfl, rfl⟩
  · intro hdet
    rw [request_error_result st optionHeaders status body hok h0,
      uploadFile_error_result st status body hok, hdet]
    constructor <;> simp [jsOr, Json.truthy]

/-- C4 witness: a 404 with body `{"detail": "Not found"}` surfaces the
message `Not found` with status 404 on both call paths. -/
theorem gateway_error_detail_witness :
    (ApiClient.request (initialState []) []
      (.response 404 (.valid (.obj [("detail", Json.str "Not found")])))).result
        = .error (.api (.str "Not found") 404 (some (.str "Not found"))) ∧
    (ApiClient.uploadFile (initialState [])
      (.response 404 (.valid (.obj [("detail", Json.str "Not found")])))).result
        = .error (.api (.str "Not found") 404 none) :=
  (gateway_error_detail (initialState []) [] 404
    (.valid (.obj [("detail", Json.str "Not found")])) rfl (by decide)).1
    "Not found" (by decide) rfl

/-! ## Claim C10: 2xx parse failures look like transport failures -/

/-- C10: on every 2xx response whose non-empty body is not valid JSON, the
JSON `request` path rejects with the structured error of status 0 and the
fixed network message — the same rejection a transport failure produces —
leaving the store untouched. -/
theorem gateway_parse_failure (st : StoreState) (optionHeaders : List (String × String))
    (status : Nat) (hok : responseOk status = true) :
    (ApiClient.request st optionHeaders (.response status .invalid)).result
        = .error (.api (.str networkErrorMessage) 0 none) ∧
    (ApiClient.request st optionHeaders (.response status .invalid)).store = st ∧
    (ApiClient.request st optionHeaders (.response status .invalid)).logoutCalls = 0 ∧
    (ApiClient.request st optionHeaders (.response status .invalid)).result
        = (ApiClient.request st optionHeaders .failure).result := by
  simp [ApiClient.request, ApiClient.requestTry, ApiClient.requestCatch, hok]

/-- C10 witness: a concrete 200 response with an unparseable body. -/
theorem gateway_parse_failure_witness :
    (ApiClient.request (initialState []) [] (.response 200 .invalid)).result
        = .error (.api (.str networkErrorMessage) 0 none) ∧
    (ApiClient.request (initialState []) [] (.response 200 .invalid)).store = initialState [] ∧
    (ApiClient.request (initialState []) [] (.response 200 .invalid)).logoutCalls = 0 ∧
    (ApiClient.request (initialState []) [] (.response 200 .invalid)).result
        = (ApiClient.request (initialState []) [] .failure).result :=
  gateway_parse_failure (initialState []) [] 200 rfl

end Todoc
